import Mathlib

/-!
Shallow embedding of `overlay.py` (bulk-watermark): a CSV-driven tool that
composites a text or image overlay onto product photographs.

Pure string/arithmetic logic (mode detection, geometry, output naming) is
translated directly.  Calls into PIL / pilmoji (pixel transformations, text
measuring, font loading) are abstracted as an environment of opaque-to-us
functions over an abstract pixel-payload type `α`; image dimensions, modes
and the control flow around those calls are embedded concretely.  Python
in-place mutation of image objects is modelled by a store of images indexed
by references, so that frame properties (the base image is never mutated)
are meaningful theorems rather than artifacts of value semantics.
-/

/-! ### Python string primitives used by the script -/

/-- The whitespace characters stripped by Python `str.strip()` (ASCII part). -/
def isPySpace (c : Char) : Bool :=
  c = ' ' || c = '\t' || c = '\n' || c = '\r' || c = '\x0b' || c = '\x0c'

/-- `str.strip()` on a character list. -/
def pyStripList (cs : List Char) : List Char :=
  ((cs.dropWhile isPySpace).reverse.dropWhile isPySpace).reverse

/-- Python `str.strip()`. -/
def pyStrip (s : String) : String := ⟨pyStripList s.data⟩

/-- Python `str.lower()` restricted to ASCII letters (the only case-folding
the script relies on: file extensions and the row-type keywords). -/
def pyLowerChar (c : Char) : Char :=
  if 'A' ≤ c ∧ c ≤ 'Z' then Char.ofNat (c.toNat + 32) else c

/-- Python `str.lower()` (ASCII model). -/
def pyLower (s : String) : String := ⟨s.data.map pyLowerChar⟩

/-- Split a character list on a separator character (Python `str.split(sep)`:
an empty input yields one empty part). -/
def splitOnChar (sep : Char) (cs : List Char) : List (List Char) :=
  cs.foldr
    (fun c acc =>
      if c = sep then [] :: acc
      else
        match acc with
        | g :: rest => (c :: g) :: rest
        | [] => [[c]])
    [[]]

/-- `pathlib.PurePath.name`: the last path component, after dropping empty
components and `.` components (as pathlib's parser does). -/
def pathNameList (cs : List Char) : List Char :=
  ((splitOnChar '/' cs).filter (fun p => p ≠ [] ∧ p ≠ ['.'])).getLastD []

/-- Python `str.rfind(c)`: index of the last occurrence, `-1` if absent. -/
def rfindChar (c : Char) (cs : List Char) : Int :=
  match cs.reverse.findIdx? (· = c) with
  | none => -1
  | some j => (cs.length : Int) - 1 - j

/-- `pathlib.PurePath.suffix` on a character list: the part of the name from
its last dot on, provided that dot is neither the first nor the last
character of the name; empty otherwise. -/
def pathSuffixList (cs : List Char) : List Char :=
  let name := pathNameList cs
  let i := rfindChar '.' name
  if 0 < i ∧ i < (name.length : Int) - 1 then name.drop i.toNat else []

/-- `pathlib.Path(s).suffix`. -/
def pathSuffix (s : String) : String := ⟨pathSuffixList s.data⟩

/-- Decimal digit character, `0 ≤ d ≤ 9`. -/
def decDigitChar (d : Nat) : Char := Char.ofNat (48 + d)

/-- Fuelled decimal-digit accumulator (the shape of `Nat.toDigits`). -/
def natDigitsCore : Nat → Nat → List Char → List Char
  | 0, _, acc => acc
  | fuel + 1, n, acc =>
    if n = 0 then acc
    else natDigitsCore fuel (n / 10) (decDigitChar (n % 10) :: acc)

/-- Decimal representation of a natural number (Python `str(n)` / `f"{n}"`
for the non-negative integers the script formats). -/
def natRepr (n : Nat) : String :=
  if n = 0 then "0" else ⟨natDigitsCore (n + 1) n []⟩

/-- Decimal representation of an integer. -/
def intRepr (n : Int) : String :=
  if n < 0 then "-" ++ natRepr n.natAbs else natRepr n.natAbs

/-- Python format `f"{n:04d}"` for non-negative `n`: pad with zeros on the
left to a minimum width of 4. -/
def pad4 (n : Nat) : String :=
  let s := natRepr n
  if 4 ≤ s.length then s else ⟨List.replicate (4 - s.length) '0'⟩ ++ s

/-! ### Mode detection (`is_image_path`, `main` lines 160-162) -/

/-- `IMAGE_EXTENSIONS` (overlay.py line 50). -/
def IMAGE_EXTENSIONS : List String :=
  [".jpg", ".jpeg", ".png", ".webp", ".bmp", ".tiff"]

/-- `is_image_path` (overlay.py lines 53-54):
`Path(value).suffix.lower() in IMAGE_EXTENSIONS`. -/
def is_image_path (value : String) : Bool :=
  IMAGE_EXTENSIONS.contains (pyLower (pathSuffix value))

/-- Mode detection from the first retained CSV row (overlay.py line 162):
`len(first) >= 4 or (len(first) >= 1 and is_image_path(first[0].strip()))`. -/
def mode2_of_first (first : List String) : Bool :=
  decide (4 ≤ first.length) ||
    (decide (1 ≤ first.length) && is_image_path (pyStrip (first.headD "")))

/-! ### Geometry resolver (`get_xy`, overlay.py lines 57-64) -/

/-- `get_xy` (overlay.py lines 57-64).  The Python function builds a dict of
the five placements and indexes it with the anchor name; an unknown anchor
raises `KeyError`, modelled by `none`.  `//` is Python floor division,
`Int.fdiv`. -/
def get_xy (anchor : String) (img_w img_h obj_w obj_h ox oy : Int) :
    Option (Int × Int) :=
  if anchor = "top-left" then some (ox, oy)
  else if anchor = "top-right" then some (img_w - obj_w - ox, oy)
  else if anchor = "bottom-left" then some (ox, img_h - obj_h - oy)
  else if anchor = "bottom-right" then
    some (img_w - obj_w - ox, img_h - obj_h - oy)
  else if anchor = "center" then
    some (Int.fdiv (img_w - obj_w) 2, Int.fdiv (img_h - obj_h) 2)
  else none

/-! ### Image model

A PIL image is its dimensions, its mode string and an abstract pixel payload
of type `α`.  PIL / pilmoji pixel transformations (convert, resize, paste,
text drawing) and text measuring cannot be embedded, so they are supplied as
an environment `Env α` of arbitrary functions; everything the script itself
computes (dimensions, coordinates, control flow, messages) is concrete.

Python images are mutable objects: the script's in-place operations are
modelled by a `Store` of images addressed by references, each mutating PIL
call being a store update at the reference of the image it is called on.
`.copy()` allocates a fresh cell. -/

/-- A PIL image: dimensions, mode string, abstract pixel payload. -/
structure Img (α : Type) where
  width : Int
  height : Int
  mode : String
  content : α
deriving DecidableEq, Repr

/-- A loaded truetype font (`ImageFont.truetype(path, size)`), abstract. -/
structure Font where
  path : String
  size : Int
deriving DecidableEq, Repr

/-- The parsed command-line arguments (overlay.py lines 122-134). -/
structure Args where
  image : Option String
  csv : String
  output_dir : String
  font : Option String
  font_size : Int
  color : String
  position : String
  x : Int
  y : Int
  overlay_size : Int
deriving DecidableEq, Repr

/-- External-library behaviour the embedding abstracts over: pilmoji
availability, `os.path.expanduser`, text measuring, and the pixel-level
PIL operations on the abstract payload. -/
structure Env (α : Type) where
  hasPilmoji : Bool
  expanduser : String → String
  /-- `Pilmoji(img).getsize(label, font)`. -/
  getsize : Img α → String → Font → Int × Int
  /-- `ImageDraw.Draw(img).textbbox((0,0), label, font)` as `(l, t, r, b)`. -/
  textbbox : Img α → String → Font → Int × Int × Int × Int
  /-- `Pilmoji(img).text((x,y), label, font, fill)` on the pixel payload. -/
  pilmojiText : α → Int × Int → String → Font → String → α
  /-- `ImageDraw.Draw(img).text((x,y), label, font, fill)` on the payload. -/
  drawTextPx : α → Int × Int → String → Font → String → α
  /-- `img.convert(mode)` on the pixel payload. -/
  convertPx : α → String → α
  /-- `img.resize((w,h), Image.LANCZOS)` on the pixel payload. -/
  resamplePx : α → Int → Int → α
  /-- `img.paste(overlay, (x,y), mask=overlay)` on the payload. -/
  pastePx : α → α → Int × Int → α

/-- The file system: paths that exist, images decodable by `Image.open`,
and CSV files' parsed rows. -/
structure Disk (α : Type) where
  files : List String
  images : List (String × Img α)
  csvs : List (String × List (List String))

/-- A reference into the image store. -/
abbrev ImgRef := Nat

/-- The store of live image objects. -/
abbrev Store (α : Type) := List (Img α)

/-- A file written by `img.save(path, quality=q)`: path, image, quality. -/
abbrev FileWrite (α : Type) := String × Img α × Nat

/-! ### Renderers (overlay.py lines 67-95) -/

/-- `measure_text` (overlay.py lines 67-73). -/
def measure_text {α : Type} (env : Env α) (img : Img α) (label : String)
    (font : Font) : Int × Int :=
  if env.hasPilmoji then
    let s := env.getsize img label font
    (s.1, s.2)
  else
    let bbox := env.textbbox img label font
    (bbox.2.2.1 - bbox.1, bbox.2.2.2 - bbox.2.1)

/-- `draw_text` (overlay.py lines 76-86): measure, resolve the anchor,
draw in place on the image at `imgRef`, return `(text_w, text_h, x, y)`.
A `KeyError` from the anchor dict or a dangling reference is an error. -/
def draw_text {α : Type} (env : Env α) (st : Store α) (imgRef : ImgRef)
    (label : String) (font : Font) (color position : String) (ox oy : Int) :
    Except String (Store α × Int × Int × Int × Int) :=
  match st[imgRef]? with
  | none => .error "invalid image reference"
  | some img =>
    let m := measure_text env img label font
    match get_xy position img.width img.height m.1 m.2 ox oy with
    | none => .error ("KeyError: " ++ position)
    | some (x, y) =>
      if env.hasPilmoji then
        .ok (st.set imgRef
              { img with content := env.pilmojiText img.content (x, y) label font color },
            m.1, m.2, x, y)
      else
        let bbox := env.textbbox img label font
        .ok (st.set imgRef
              { img with content :=
                  env.drawTextPx img.content (x - bbox.1, y - bbox.2.1) label font color },
            m.1, m.2, x, y)

/-- `draw_image_overlay` (overlay.py lines 89-95): open the overlay,
convert to RGBA, rescale to the requested width with
`new_h = int(overlay.height * overlay_width / overlay.width)` (Python
`int()` of the float quotient truncates toward zero: `Int.tdiv`, exact for
the image dimensions in play), paste at the anchor-resolved position. -/
def draw_image_overlay {α : Type} (env : Env α) (disk : Disk α)
    (st : Store α) (imgRef : ImgRef) (overlay_path : String)
    (overlay_width : Int) (position : String) (ox oy : Int) :
    Except String (Store α × Int × Int × Int × Int) :=
  match st[imgRef]? with
  | none => .error "invalid image reference"
  | some img =>
    match disk.images.lookup (env.expanduser overlay_path) with
    | none => .error ("cannot identify image file: " ++ env.expanduser overlay_path)
    | some ov0 =>
      let ov1 : Img α :=
        { ov0 with mode := "RGBA", content := env.convertPx ov0.content "RGBA" }
      let new_h := Int.tdiv (ov1.height * overlay_width) ov1.width
      let ov2 : Img α :=
        { ov1 with width := overlay_width, height := new_h,
                   content := env.resamplePx ov1.content overlay_width new_h }
      match get_xy position img.width img.height overlay_width new_h ox oy with
      | none => .error ("KeyError: " ++ position)
      | some (x, y) =>
        .ok (st.set imgRef { img with content := env.pastePx img.content ov2.content (x, y) },
            overlay_width, new_h, x, y)

/-! ### Row processor (`process_row`, overlay.py lines 98-118) -/

/-- `process_row` (overlay.py lines 98-118).  Returns the status line, the
files written (the save step writes one JPEG at quality 92), and the store
after the call.  `img = base.copy().convert("RGBA")` allocates a fresh cell
holding the converted copy; every subsequent mutation targets that cell. -/
def process_row {α : Type} (env : Env α) (disk : Disk α) (st : Store α)
    (baseRef : ImgRef) (row_type value : String) (out_path : String)
    (font : Option Font) (args : Args) :
    Except String (Store α × String × List (FileWrite α)) :=
  match st[baseRef]? with
  | none => .error "invalid image reference"
  | some base =>
    let img : Img α := { base with mode := "RGBA", content := env.convertPx base.content "RGBA" }
    let st1 := st ++ [img]
    let imgRef : ImgRef := st.length
    if row_type = "text" then
      match font with
      | none => .ok (st1, "SKIP: --font required for text rows", [])
      | some f =>
        match draw_text env st1 imgRef value f args.color args.position args.x args.y with
        | .error e => .error e
        | .ok (st2, w, h, x, y) =>
          match st2[imgRef]? with
          | none => .error "invalid image reference"
          | some im =>
            let rgb : Img α := { im with mode := "RGB", content := env.convertPx im.content "RGB" }
            .ok (st2,
                "OK: text '" ++ value ++ "' at " ++ intRepr x ++ "," ++ intRepr y ++
                  " (" ++ intRepr w ++ "x" ++ intRepr h ++ "px) -> " ++ out_path,
                [(out_path, rgb, 92)])
    else if row_type = "image" then
      let overlay_path := env.expanduser value
      if disk.files.contains overlay_path then
        match draw_image_overlay env disk st1 imgRef overlay_path args.overlay_size
            args.position args.x args.y with
        | .error e => .error e
        | .ok (st2, w, h, x, y) =>
          match st2[imgRef]? with
          | none => .error "invalid image reference"
          | some im =>
            let rgb : Img α := { im with mode := "RGB", content := env.convertPx im.content "RGB" }
            .ok (st2,
                "OK: image '" ++ value ++ "' at " ++ intRepr x ++ "," ++ intRepr y ++
                  " (" ++ intRepr w ++ "x" ++ intRepr h ++ "px) -> " ++ out_path,
                [(out_path, rgb, 92)])
      else .ok (st1, "SKIP: overlay not found: " ++ overlay_path, [])
    else
      .ok (st1, "SKIP: unknown type '" ++ row_type ++ "' (use 'text' or 'image')", [])

/-! ### Output naming (overlay.py lines 180, 190, 193-194) -/

/-- The sequential default output name `f"image_{i+1:04d}.jpg"` for the row
at enumerate index `i` (overlay.py lines 180 and 190). -/
def default_out_name (i : Nat) : String :=
  "image_" ++ pad4 (i + 1) ++ ".jpg"

/-- Lines 193-194: `if not Path(out_name).suffix: out_name += ".jpg"`. -/
def add_default_ext (out_name : String) : String :=
  if pathSuffix out_name = "" then out_name ++ ".jpg" else out_name

/-- Raw output name in Mode 1 (overlay.py line 190):
`row[2].strip() if len(row) > 2 and row[2].strip() else f"image_{i+1:04d}.jpg"`. -/
def raw_out_name_mode1 (row : List String) (i : Nat) : String :=
  if 2 < row.length ∧ pyStrip (row.getD 2 "") ≠ "" then pyStrip (row.getD 2 "")
  else default_out_name i

/-- Raw output name in Mode 2 (overlay.py line 180). -/
def raw_out_name_mode2 (row : List String) (i : Nat) : String :=
  if 3 < row.length ∧ pyStrip (row.getD 3 "") ≠ "" then pyStrip (row.getD 3 "")
  else default_out_name i

/-- Output name in Mode 1: line 190 composed with lines 193-194. -/
def out_name_mode1 (row : List String) (i : Nat) : String :=
  add_default_ext (raw_out_name_mode1 row i)

/-- Output name in Mode 2: line 180 composed with lines 193-194. -/
def out_name_mode2 (row : List String) (i : Nat) : String :=
  add_default_ext (raw_out_name_mode2 row i)

/-! ### Batch driver (`main`, overlay.py lines 121-200) -/

/-- The startup banner (overlay.py line 136). -/
def banner_line (hasPilmoji : Bool) : String :=
  (if hasPilmoji then "✓" else "⚠") ++ " pilmoji " ++
    (if hasPilmoji then "enabled" else "not found — emoji will render as boxes")

/-- Font loading (overlay.py lines 138-143): checked existence, then
`ImageFont.truetype` (abstracted as constructing a `Font`). -/
def load_font {α : Type} (env : Env α) (disk : Disk α) (args : Args) :
    Except String (Option Font) :=
  match args.font with
  | none => .ok none
  | some fp =>
    let font_path := env.expanduser fp
    if disk.files.contains font_path then .ok (some ⟨font_path, args.font_size⟩)
    else .error ("ERROR: Font not found: " ++ font_path)

/-- Outcome of the Mode 1 base-image load (overlay.py lines 149-155). -/
inductive BaseLoad (α : Type) where
  | fatalErr (msg : String)
  | exn (msg : String)
  | loaded (img : Option (Img α)) (logLine : Option String)

/-- Base-image load (overlay.py lines 149-155): only when `--image` was
given; missing file is a checked fatal error; an unreadable file is an
uncaught exception from `Image.open`. -/
def load_base {α : Type} (env : Env α) (disk : Disk α) (args : Args) : BaseLoad α :=
  match args.image with
  | none => .loaded none none
  | some im =>
    let image_path := env.expanduser im
    if disk.files.contains image_path then
      match disk.images.lookup image_path with
      | none => .exn ("cannot identify image file: " ++ image_path)
      | some b =>
        .loaded (some b)
          (some ("Mode 1 — single base image: " ++ image_path ++ " (" ++
                intRepr b.width ++ "x" ++ intRepr b.height ++ "px)"))
    else .fatalErr ("ERROR: Base image not found: " ++ image_path)

/-- Shared tail of a loop iteration (overlay.py lines 193-198): append the
default extension (already folded into the out-name), join the output path,
run `process_row`, format the status line. -/
def run_row {α : Type} (env : Env α) (disk : Disk α) (args : Args)
    (font : Option Font) (st : Store α) (cache : List (String × ImgRef))
    (baseRef : ImgRef) (row_type value out_name tag : String) :
    Except String (Store α × List (String × ImgRef) × String × List (FileWrite α)) :=
  let out_path := args.output_dir ++ "/" ++ out_name
  match process_row env disk st baseRef row_type value out_path font args with
  | .error e => .error e
  | .ok (st2, msg, ws) => .ok (st2, cache, tag ++ msg, ws)

/-- One iteration of the row loop (overlay.py lines 173-198) at enumerate
index `i`: returns the store, the base-image cache, the printed line and
the files written, or the exception that escaped the iteration. -/
def main_step {α : Type} (env : Env α) (disk : Disk α) (args : Args)
    (font : Option Font) (mode2 : Bool) (baseImage : Option ImgRef)
    (st : Store α) (cache : List (String × ImgRef)) (i : Nat)
    (row : List String) :
    Except String (Store α × List (String × ImgRef) × String × List (FileWrite α)) :=
  let tag := "  [" ++ natRepr (i + 1) ++ "] "
  if mode2 then
    if row.length < 3 then .ok (st, cache, tag ++ "SKIP: not enough columns", [])
    else
      let img_path := env.expanduser (pyStrip (row.getD 0 ""))
      let row_type := pyLower (pyStrip (row.getD 1 ""))
      let value := pyStrip (row.getD 2 "")
      let out_name := out_name_mode2 row i
      match cache.lookup img_path with
      | some r => run_row env disk args font st cache r row_type value out_name tag
      | none =>
        if disk.files.contains img_path then
          match disk.images.lookup img_path with
          | none => .error ("cannot identify image file: " ++ img_path)
          | some im =>
            run_row env disk args font (st ++ [im]) ((img_path, st.length) :: cache)
              st.length row_type value out_name tag
        else .ok (st, cache, tag ++ "SKIP: input image not found: " ++ img_path, [])
  else
    let row_type := pyLower (pyStrip (row.getD 0 ""))
    let value := if 1 < row.length then pyStrip (row.getD 1 "") else ""
    let out_name := out_name_mode1 row i
    match baseImage with
    | none => .error "TypeError: base is None"
    | some r => run_row env disk args font st cache r row_type value out_name tag

/-- The row loop (overlay.py lines 173-198), rows paired with their
enumerate index starting at `i`.  Returns the final store, the printed
lines, the files written, and the exception (if one escaped, ending the
run; the lines and writes of earlier, completed iterations are kept). -/
def main_loop {α : Type} (env : Env α) (disk : Disk α) (args : Args)
    (font : Option Font) (mode2 : Bool) (baseImage : Option ImgRef)
    (st : Store α) (cache : List (String × ImgRef)) (i : Nat) :
    List (List String) →
    Store α × List String × List (FileWrite α) × Option String
  | [] => (st, [], [], none)
  | row :: rest =>
    match main_step env disk args font mode2 baseImage st cache i row with
    | .error e => (st, [], [], some e)
    | .ok (st2, cache2, line, ws) =>
      let r := main_loop env disk args font mode2 baseImage st2 cache2 (i + 1) rest
      (r.1, line :: r.2.1, ws ++ r.2.2.1, r.2.2.2)

/-- Overall outcome of a run of `main` after argument parsing: a checked
fatal error (`print(...); return`), an uncaught exception, or completion.
Each constructor carries the console lines printed and (for the last two)
the files written before the outcome. -/
inductive MainResult (α : Type) where
  | fatal (log : List String) (err : String)
  | uncaught (log : List String) (writes : List (FileWrite α)) (exn : String)
  | ok (log : List String) (writes : List (FileWrite α))
deriving DecidableEq

/-- `main` (overlay.py lines 121-200) after argument parsing: banner, font
load, output-dir creation (no observable state here), Mode 1 base-image
load, CSV open (unchecked: a missing file raises `FileNotFoundError`),
blank-row filtering, mode detection (`rows[0]` raises `IndexError` on an
empty list), the Mode 1 `--image` requirement, then the row loop. -/
def main_run {α : Type} (env : Env α) (disk : Disk α) (args : Args) : MainResult α :=
  let log0 := [banner_line env.hasPilmoji]
  match load_font env disk args with
  | .error e => .fatal log0 e
  | .ok font =>
    match load_base env disk args with
    | .fatalErr e => .fatal log0 e
    | .exn e => .uncaught log0 [] e
    | .loaded baseOpt modeLine =>
      let log1 := log0 ++ modeLine.toList
      if disk.files.contains args.csv then
        let rows := ((disk.csvs.lookup args.csv).getD []).filter (fun r => !r.isEmpty)
        match rows with
        | [] => .uncaught log1 [] "IndexError: list index out of range"
        | first :: _ =>
          let mode2 := mode2_of_first first
          if !mode2 && baseOpt.isNone then .fatal log1 "ERROR: Mode 1 requires --image"
          else
            let log2 := log1 ++ (if mode2 then ["Mode 2 — image per row"] else []) ++
              ["Processing " ++ natRepr rows.length ++ " rows..."]
            let r := main_loop env disk args font mode2
              (baseOpt.map fun _ => 0) baseOpt.toList [] 0 rows
            match r.2.2.2 with
            | some e => .uncaught (log2 ++ r.2.1) r.2.2.1 e
            | none =>
              .ok (log2 ++ r.2.1 ++ ["Done. Output in '" ++ args.output_dir ++ "/'"])
                r.2.2.1
      else .uncaught log1 [] ("FileNotFoundError: " ++ args.csv)

/-! ### Concrete fixtures used to evaluate the embedding -/

/-- Trivial pixel environment over `Unit`: pilmoji present, every label
measuring 3x2, `expanduser` the identity. -/
def unitEnv : Env Unit where
  hasPilmoji := true
  expanduser := fun s => s
  getsize := fun _ _ _ => (3, 2)
  textbbox := fun _ _ _ => (0, 0, 3, 2)
  pilmojiText := fun _ _ _ _ _ => ()
  drawTextPx := fun _ _ _ _ _ => ()
  convertPx := fun _ _ => ()
  resamplePx := fun _ _ _ => ()
  pastePx := fun _ _ _ => ()

/-- A 10x10 RGB base image. -/
def baseImg10 : Img Unit := ⟨10, 10, "RGB", ()⟩

/-- A 2x3 overlay image (width 2, height 3). -/
def ovImg23 : Img Unit := ⟨2, 3, "RGB", ()⟩

/-- An empty file system. -/
def emptyDisk : Disk Unit := ⟨[], [], []⟩

/-- A file system holding only the overlay `ov.png` (2x3). -/
def ovDisk : Disk Unit := ⟨["ov.png"], [("ov.png", ovImg23)], []⟩

/-- A file system holding only a CSV whose rows are all blank. -/
def blankCsvDisk : Disk Unit := ⟨["data.csv"], [], [("data.csv", [[], [], []])]⟩

/-- Default command-line arguments (overlay.py lines 122-133) with
`--csv attributes.csv`. -/
def args0 : Args :=
  ⟨none, "attributes.csv", "output", none, 48, "#333333", "bottom-left", 20, 20, 150⟩

/-- Claim C1 (confirmed): Mode 2 is selected if and only if the first
retained CSV row has at least 4 columns, or its first column, stripped, has
a file extension in the known image-extension set (case-insensitively).
In particular `("text","hello","a.jpg")` yields Mode 1,
`("base.png","text","hello","a.jpg")` yields Mode 2, and a 3-column row
starting with `"photo.jpg"` yields Mode 2. -/
theorem C1_mode_detection :
    (∀ first : List String,
        mode2_of_first first = true ↔
          (4 ≤ first.length ∨
            pyLower (pathSuffix (pyStrip (first.headD ""))) ∈ IMAGE_EXTENSIONS)) ∧
    mode2_of_first ["text", "hello", "a.jpg"] = false ∧
    mode2_of_first ["base.png", "text", "hello", "a.jpg"] = true ∧
    mode2_of_first ["photo.jpg", "text", "hello"] = true := by
  refine ⟨?_, by decide, by decide, by decide⟩
  intro first
  cases first with
  | nil => decide
  | cons a rest =>
    have h1 : 1 ≤ (a :: rest).length := Nat.succ_le_succ (Nat.zero_le _)
    simp [mode2_of_first, is_image_path, h1, List.contains, List.elem_iff]

/-- Claim C2 (confirmed): for every anchor among the five recognized names
the geometry resolver returns exactly the coordinates the specification
lists, with `//` integer floor division, and for the `center` anchor the
result does not depend on the offsets. -/
theorem C2_get_xy_formulas :
    (∀ img_w img_h obj_w obj_h ox oy : Int,
        get_xy "top-left" img_w img_h obj_w obj_h ox oy = some (ox, oy) ∧
        get_xy "top-right" img_w img_h obj_w obj_h ox oy =
          some (img_w - obj_w - ox, oy) ∧
        get_xy "bottom-left" img_w img_h obj_w obj_h ox oy =
          some (ox, img_h - obj_h - oy) ∧
        get_xy "bottom-right" img_w img_h obj_w obj_h ox oy =
          some (img_w - obj_w - ox, img_h - obj_h - oy) ∧
        get_xy "center" img_w img_h obj_w obj_h ox oy =
          some (Int.fdiv (img_w - obj_w) 2, Int.fdiv (img_h - obj_h) 2)) ∧
    (∀ img_w img_h obj_w obj_h ox oy ox2 oy2 : Int,
        get_xy "center" img_w img_h obj_w obj_h ox oy =
          get_xy "center" img_w img_h obj_w obj_h ox2 oy2) :=
  ⟨fun _ _ _ _ _ _ => ⟨rfl, rfl, rfl, rfl, rfl⟩, fun _ _ _ _ _ _ _ _ => rfl⟩

/-- Claim C3 counterexample: at anchor `top-left` with a 10x10 container,
a 10x10 object and offsets (20, 20) — non-negative offsets, object not
larger than container — the resolver returns (20, 20) and
20 + 10 ≤ 10 fails, so the placed object exceeds the container bound. -/
theorem C3_counterexample :
    (0 : Int) ≤ 20 ∧ (0 : Int) ≤ 20 ∧ (10 : Int) ≤ 10 ∧ (10 : Int) ≤ 10 ∧
    get_xy "top-left" 10 10 10 10 20 20 = some (20, 20) ∧
    ¬ ((20 : Int) + 10 ≤ 10) := by decide

/-- Claim C3 (corrected): the boundary property holds for all five anchors
once the offset hypotheses are strengthened from `obj ≤ container` to
`offset + obj ≤ container` in each axis (with non-negative offsets): the
resolver output then satisfies `x + obj_w ≤ img_w` and
`y + obj_h ≤ img_h`. -/
theorem C3_bounds (anchor : String)
    (hmem : anchor ∈ ["top-left", "top-right", "bottom-left", "bottom-right", "center"])
    (img_w img_h obj_w obj_h ox oy x y : Int)
    (hox : 0 ≤ ox) (hoy : 0 ≤ oy)
    (hxw : ox + obj_w ≤ img_w) (hyh : oy + obj_h ≤ img_h)
    (hxy : get_xy anchor img_w img_h obj_w obj_h ox oy = some (x, y)) :
    x + obj_w ≤ img_w ∧ y + obj_h ≤ img_h := by
  have hfdiv : ∀ d : Int, 0 ≤ d → Int.fdiv d 2 ≤ d := by
    intro d hd
    rw [Int.fdiv_eq_ediv _ (by decide)]
    exact Int.ediv_le_self 2 hd
  fin_cases hmem
  · simp [get_xy] at hxy
    omega
  · simp [get_xy] at hxy
    omega
  · simp [get_xy] at hxy
    omega
  · simp [get_xy] at hxy
    omega
  · simp [get_xy] at hxy
    have h1 := hfdiv (img_w - obj_w) (by omega)
    have h2 := hfdiv (img_h - obj_h) (by omega)
    omega

/-- Claim C3 witness: the amended boundary theorem applied at the
`center` anchor in a 10x10 container with a 4x5 object and offsets
(1, 1). -/
theorem C3_bounds_witness :
    (3 : Int) + 4 ≤ 10 ∧ (2 : Int) + 5 ≤ 10 :=
  C3_bounds "center" (by decide) 10 10 4 5 1 1 3 2 (by decide) (by decide)
    (by decide) (by decide) (by decide)

/-- Claim C4 counterexample: a 2x3 overlay resized to requested width 5
gets height `int(3 * 5 / 2) = 7`, while `round(3 * 5 / 2) = round(7.5) = 8`:
the code truncates, it does not round. -/
theorem C4_counterexample :
    draw_image_overlay unitEnv ovDisk [baseImg10] 0 "ov.png" 5 "top-left" 0 0 =
      .ok ([baseImg10], 5, 7, 0, 0) ∧
    (7 : ℤ) ≠ round ((3 : ℚ) * 5 / 2) := by
  refine ⟨rfl, ?_⟩
  norm_num [round_eq]

/-- Claim C4 (corrected): an image overlay of original size
(`ov.width`, `ov.height`) with requested width `W` is resized to width
exactly `W` and height `⌊ov.height * W / ov.width⌋` (floor — Python
`int()` truncation of the non-negative quotient), not the rounded
quotient. -/
theorem C4_overlay_resize {α : Type} (env : Env α) (disk : Disk α) (st : Store α)
    (imgRef : ImgRef) (path : String) (W ox oy : Int) (position : String)
    (ov : Img α) (hov : disk.images.lookup (env.expanduser path) = some ov)
    (hw : 0 < ov.width) (hh : 0 ≤ ov.height) (hW : 0 ≤ W)
    (st2 : Store α) (w h x y : Int)
    (hok : draw_image_overlay env disk st imgRef path W position ox oy =
      .ok (st2, w, h, x, y)) :
    w = W ∧ h = Int.fdiv (ov.height * W) ov.width := by
  unfold draw_image_overlay at hok
  split at hok
  · exact absurd hok (by simp)
  · simp only [hov] at hok
    split at hok
    · exact absurd hok (by simp)
    · simp only [Except.ok.injEq, Prod.mk.injEq] at hok
      obtain ⟨-, hw', hh', -, -⟩ := hok
      refine ⟨hw'.symm, ?_⟩
      rw [← hh', Int.fdiv_eq_tdiv (mul_nonneg hh hW) (le_of_lt hw)]

/-- Claim C4 witness: the resize-dimension theorem applied to the 2x3
overlay `ov.png` at requested width 5. -/
theorem C4_overlay_resize_witness :
    (5 : Int) = 5 ∧ (7 : Int) = Int.fdiv (ovImg23.height * 5) ovImg23.width :=
  C4_overlay_resize unitEnv ovDisk [baseImg10] 0 "ov.png" 5 0 0 "top-left"
    ovImg23 (by rfl) (by decide) (by decide) (by decide)
    [baseImg10] 5 7 0 0 (by rfl)

/-- Claim C6 (confirmed): a `text` row processed with no font configured
returns the SKIP outcome `"SKIP: --font required for text rows"` and writes
no file; the store only gains the working copy allocated before the
check. -/
theorem C6_text_without_font {α : Type} (env : Env α) (disk : Disk α)
    (st : Store α) (baseRef : ImgRef) (base : Img α)
    (hbase : st[baseRef]? = some base) (value out_path : String) (args : Args) :
    process_row env disk st baseRef "text" value out_path none args =
      .ok (st ++ [{ base with mode := "RGBA", content := env.convertPx base.content "RGBA" }],
          "SKIP: --font required for text rows", []) := by
  unfold process_row
  rw [hbase]
  rfl

/-- Claim C6 witness: the no-font SKIP theorem evaluated on a singleton
store holding a 10x10 base image. -/
theorem C6_text_without_font_witness :
    process_row unitEnv emptyDisk [baseImg10] 0 "text" "hi" "output/x.jpg" none args0 =
      .ok ([baseImg10, { baseImg10 with mode := "RGBA", content := unitEnv.convertPx baseImg10.content "RGBA" }],
          "SKIP: --font required for text rows", []) :=
  C6_text_without_font unitEnv emptyDisk [baseImg10] 0 baseImg10 rfl "hi" "output/x.jpg" args0

/-- On success `draw_text` only updates the cell it was pointed at. -/
theorem draw_text_store_shape {α : Type} (env : Env α) (st : Store α)
    (imgRef : ImgRef) (label : String) (font : Font) (color position : String)
    (ox oy : Int) (st2 : Store α) (w h x y : Int)
    (hok : draw_text env st imgRef label font color position ox oy =
      .ok (st2, w, h, x, y)) :
    ∃ im, st2 = st.set imgRef im := by
  unfold draw_text at hok
  split at hok
  · exact absurd hok (by simp)
  · dsimp only at hok
    split at hok
    · exact absurd hok (by simp)
    · split at hok
      · simp only [Except.ok.injEq, Prod.mk.injEq] at hok
        exact ⟨_, hok.1.symm⟩
      · simp only [Except.ok.injEq, Prod.mk.injEq] at hok
        exact ⟨_, hok.1.symm⟩

/-- On success `draw_image_overlay` only updates the cell it was pointed at. -/
theorem draw_image_overlay_store_shape {α : Type} (env : Env α) (disk : Disk α)
    (st : Store α) (imgRef : ImgRef) (overlay_path : String)
    (overlay_width : Int) (position : String) (ox oy : Int)
    (st2 : Store α) (w h x y : Int)
    (hok : draw_image_overlay env disk st imgRef overlay_path overlay_width
      position ox oy = .ok (st2, w, h, x, y)) :
    ∃ im, st2 = st.set imgRef im := by
  unfold draw_image_overlay at hok
  split at hok
  · exact absurd hok (by simp)
  · split at hok
    · exact absurd hok (by simp)
    · dsimp only at hok
      split at hok
      · exact absurd hok (by simp)
      · simp only [Except.ok.injEq, Prod.mk.injEq] at hok
        exact ⟨_, hok.1.symm⟩

/-- On success `process_row` leaves every previously existing store cell
unchanged and never shrinks the store. -/
theorem process_row_frame {α : Type} (env : Env α) (disk : Disk α)
    (st : Store α) (baseRef : ImgRef) (row_type value out_path : String)
    (font : Option Font) (args : Args) (st2 : Store α) (msg : String)
    (ws : List (FileWrite α))
    (hok : process_row env disk st baseRef row_type value out_path font args =
      .ok (st2, msg, ws)) :
    (∀ j, j < st.length → st2[j]? = st[j]?) ∧ st.length ≤ st2.length := by
  have happ : ∀ im : Img α, ∀ j, j < st.length → (st ++ [im])[j]? = st[j]? :=
    fun im j hj => List.getElem?_append_left hj
  have hset : ∀ im im2 : Img α, ∀ j, j < st.length →
      ((st ++ [im]).set st.length im2)[j]? = st[j]? := by
    intro im im2 j hj
    rw [List.getElem?_set_ne (by omega), happ im j hj]
  unfold process_row at hok
  split at hok
  · exact absurd hok (by simp)
  · dsimp only at hok
    split at hok
    · -- row_type = "text"
      split at hok
      · simp only [Except.ok.injEq, Prod.mk.injEq] at hok
        obtain ⟨h1, -, -⟩ := hok
        subst h1
        exact ⟨fun j hj => happ _ j hj, by simp⟩
      · split at hok
        · exact absurd hok (by simp)
        · rename_i st3 w h x y heq
          split at hok
          · exact absurd hok (by simp)
          · simp only [Except.ok.injEq, Prod.mk.injEq] at hok
            obtain ⟨h1, -, -⟩ := hok
            subst h1
            obtain ⟨im2, him2⟩ := draw_text_store_shape _ _ _ _ _ _ _ _ _ _ _ _ _ _ heq
            subst him2
            refine ⟨fun j hj => hset _ _ j hj, ?_⟩
            simp [List.length_set]
    · split at hok
      · -- row_type = "image"
        split at hok
        · split at hok
          · exact absurd hok (by simp)
          · rename_i st3 w h x y heq
            split at hok
            · exact absurd hok (by simp)
            · simp only [Except.ok.injEq, Prod.mk.injEq] at hok
              obtain ⟨h1, -, -⟩ := hok
              subst h1
              obtain ⟨im2, him2⟩ :=
                draw_image_overlay_store_shape _ _ _ _ _ _ _ _ _ _ _ _ _ _ heq
              subst him2
              refine ⟨fun j hj => hset _ _ j hj, ?_⟩
              simp [List.length_set]
        · simp only [Except.ok.injEq, Prod.mk.injEq] at hok
          obtain ⟨h1, -, -⟩ := hok
          subst h1
          exact ⟨fun j hj => happ _ j hj, by simp⟩
      · simp only [Except.ok.injEq, Prod.mk.injEq] at hok
        obtain ⟨h1, -, -⟩ := hok
        subst h1
        exact ⟨fun j hj => happ _ j hj, by simp⟩

/-- On success `run_row` leaves previously existing store cells unchanged
and never shrinks the store. -/
theorem run_row_frame {α : Type} (env : Env α) (disk : Disk α) (args : Args)
    (font : Option Font) (st : Store α) (cache : List (String × ImgRef))
    (baseRef : ImgRef) (row_type value out_name tag : String)
    (st2 : Store α) (cache2 : List (String × ImgRef)) (line : String)
    (ws : List (FileWrite α))
    (hok : run_row env disk args font st cache baseRef row_type value out_name tag =
      .ok (st2, cache2, line, ws)) :
    (∀ j, j < st.length → st2[j]? = st[j]?) ∧ st.length ≤ st2.length := by
  unfold run_row at hok
  dsimp only at hok
  split at hok
  · exact absurd hok (by simp)
  · rename_i st3 msg ws3 heq
    simp only [Except.ok.injEq, Prod.mk.injEq] at hok
    obtain ⟨h1, -, -, -⟩ := hok
    subst h1
    exact process_row_frame _ _ _ _ _ _ _ _ _ _ _ _ heq

/-- On success a loop iteration leaves previously existing store cells
unchanged and never shrinks the store. -/
theorem main_step_frame {α : Type} (env : Env α) (disk : Disk α) (args : Args)
    (font : Option Font) (mode2 : Bool) (baseImage : Option ImgRef)
    (st : Store α) (cache : List (String × ImgRef)) (i : Nat)
    (row : List String) (st2 : Store α) (cache2 : List (String × ImgRef))
    (line : String) (ws : List (FileWrite α))
    (hok : main_step env disk args font mode2 baseImage st cache i row =
      .ok (st2, cache2, line, ws)) :
    (∀ j, j < st.length → st2[j]? = st[j]?) ∧ st.length ≤ st2.length := by
  unfold main_step at hok
  dsimp only at hok
  split at hok
  · -- mode 2
    split at hok
    · simp only [Except.ok.injEq, Prod.mk.injEq] at hok
      obtain ⟨h1, -, -, -⟩ := hok
      subst h1
      exact ⟨fun j _ => rfl, Nat.le_refl _⟩
    · split at hok
      · exact run_row_frame _ _ _ _ _ _ _ _ _ _ _ _ _ _ _ hok
      · split at hok
        · split at hok
          · exact absurd hok (by simp)
          · rename_i im him
            have hfr := run_row_frame _ _ _ _ _ _ _ _ _ _ _ _ _ _ _ hok
            constructor
            · intro j hj
              rw [hfr.1 j (by simp; omega), List.getElem?_append_left hj]
            · calc st.length ≤ (st ++ [im]).length := by simp
                _ ≤ st2.length := hfr.2
        · simp only [Except.ok.injEq, Prod.mk.injEq] at hok
          obtain ⟨h1, -, -, -⟩ := hok
          subst h1
          exact ⟨fun j _ => rfl, Nat.le_refl _⟩
  · -- mode 1
    split at hok
    · exact absurd hok (by simp)
    · exact run_row_frame _ _ _ _ _ _ _ _ _ _ _ _ _ _ _ hok

/-- The row loop leaves every store cell that existed at loop entry
unchanged. -/
theorem main_loop_frame {α : Type} (env : Env α) (disk : Disk α) (args : Args)
    (font : Option Font) (mode2 : Bool) (baseImage : Option ImgRef) :
    ∀ (rows : List (List String)) (st : Store α)
      (cache : List (String × ImgRef)) (i : Nat) (j : Nat), j < st.length →
      (main_loop env disk args font mode2 baseImage st cache i rows).1[j]? = st[j]? := by
  intro rows
  induction rows with
  | nil => intro st cache i j hj; rfl
  | cons row rest ih =>
    intro st cache i j hj
    unfold main_loop
    cases hstep : main_step env disk args font mode2 baseImage st cache i row with
    | error e => rfl
    | ok out =>
      obtain ⟨st2, cache2, line, ws⟩ := out
      have hfr := main_step_frame _ _ _ _ _ _ _ _ _ _ _ _ _ _ hstep
      dsimp only
      rw [ih st2 cache2 (i + 1) j (Nat.lt_of_lt_of_le hj hfr.2), hfr.1 j hj]

/-- Claim C9 (confirmed): the row processor never mutates the base image
cell it is given — after a successful `process_row` the store at `baseRef`
is unchanged — and the whole row loop leaves every image cell that existed
at loop entry (the Mode 1 base, the Mode 2 cache entries) unchanged. -/
theorem C9_base_never_mutated :
    (∀ (α : Type) (env : Env α) (disk : Disk α) (st : Store α)
        (baseRef : ImgRef) (row_type value out_path : String)
        (font : Option Font) (args : Args) (st2 : Store α) (msg : String)
        (ws : List (FileWrite α)),
      process_row env disk st baseRef row_type value out_path font args =
          .ok (st2, msg, ws) →
        st2[baseRef]? = st[baseRef]?) ∧
    (∀ (α : Type) (env : Env α) (disk : Disk α) (args : Args)
        (font : Option Font) (mode2 : Bool) (baseImage : Option ImgRef)
        (rows : List (List String)) (st : Store α)
        (cache : List (String × ImgRef)) (i j : Nat), j < st.length →
      (main_loop env disk args font mode2 baseImage st cache i rows).1[j]? = st[j]?) := by
  constructor
  · intro α env disk st baseRef row_type value out_path font args st2 msg ws hok
    by_cases hlt : baseRef < st.length
    · exact (process_row_frame _ _ _ _ _ _ _ _ _ _ _ _ hok).1 baseRef hlt
    · exfalso
      unfold process_row at hok
      rw [List.getElem?_eq_none (Nat.le_of_not_lt hlt)] at hok
      exact absurd hok (by simp)
  · intro α env disk args font mode2 baseImage rows st cache i j hj
    exact main_loop_frame _ _ _ _ _ _ rows st cache i j hj

/-- Claim C9 witness: both parts applied concretely — an unknown-type row
over a singleton store, and a one-row loop — leave cell 0 untouched. -/
theorem C9_base_never_mutated_witness :
    ([baseImg10, { baseImg10 with mode := "RGBA", content := () }] : Store Unit)[0]? =
      ([baseImg10] : Store Unit)[0]? ∧
    (main_loop unitEnv emptyDisk args0 none true none [baseImg10] [] 0 [[]]).1[0]? =
      ([baseImg10] : Store Unit)[0]? :=
  ⟨C9_base_never_mutated.1 Unit unitEnv emptyDisk [baseImg10] 0 "bogus" "" "o" none args0
      [baseImg10, { baseImg10 with mode := "RGBA", content := () }]
      "SKIP: unknown type 'bogus' (use 'text' or 'image')" [] rfl,
    C9_base_never_mutated.2 Unit unitEnv emptyDisk args0 none true none [[]] [baseImg10] [] 0 0
      (by decide)⟩

/-- Claim C7 (corrected): in Mode 2 a row with fewer than 3 columns is a
per-row recoverable failure — the step prints
`SKIP: not enough columns`, writes nothing, leaves store and cache
unchanged, and the loop continues with the next row.  Mode 1 has no such
check (see the counterexample). -/
theorem C7_short_row_mode2_skip :
    (∀ (α : Type) (env : Env α) (disk : Disk α) (args : Args)
        (font : Option Font) (baseImage : Option ImgRef) (st : Store α)
        (cache : List (String × ImgRef)) (i : Nat) (row : List String),
      row.length < 3 →
        main_step env disk args font true baseImage st cache i row =
          .ok (st, cache, ("  [" ++ natRepr (i + 1) ++ "] ") ++ "SKIP: not enough columns",
              [])) ∧
    (∀ (α : Type) (env : Env α) (disk : Disk α) (args : Args)
        (font : Option Font) (baseImage : Option ImgRef) (st : Store α)
        (cache : List (String × ImgRef)) (i : Nat) (row : List String)
        (rest : List (List String)),
      row.length < 3 →
        main_loop env disk args font true baseImage st cache i (row :: rest) =
          ((main_loop env disk args font true baseImage st cache (i + 1) rest).1,
            (("  [" ++ natRepr (i + 1) ++ "] ") ++ "SKIP: not enough columns") ::
              (main_loop env disk args font true baseImage st cache (i + 1) rest).2.1,
            (main_loop env disk args font true baseImage st cache (i + 1) rest).2.2.1,
            (main_loop env disk args font true baseImage st cache (i + 1) rest).2.2.2)) := by
  have hstep : ∀ (α : Type) (env : Env α) (disk : Disk α) (args : Args)
      (font : Option Font) (baseImage : Option ImgRef) (st : Store α)
      (cache : List (String × ImgRef)) (i : Nat) (row : List String),
      row.length < 3 →
        main_step env disk args font true baseImage st cache i row =
          .ok (st, cache, ("  [" ++ natRepr (i + 1) ++ "] ") ++ "SKIP: not enough columns",
              []) := by
    intro α env disk args font baseImage st cache i row hshort
    unfold main_step
    simp [hshort]
  refine ⟨hstep, ?_⟩
  intro α env disk args font baseImage st cache i row rest hshort
  have hunf : main_loop env disk args font true baseImage st cache i (row :: rest) =
      match main_step env disk args font true baseImage st cache i row with
      | .error e => (st, [], [], some e)
      | .ok (st2, cache2, line, ws) =>
        let r := main_loop env disk args font true baseImage st2 cache2 (i + 1) rest
        (r.1, line :: r.2.1, ws ++ r.2.2.1, r.2.2.2) := rfl
  rw [hunf, hstep α env disk args font baseImage st cache i row hshort]
  rfl

/-- Claim C7 counterexample: in Mode 1 a one-column row `["text"]` (too
few columns for `type,value,output`) is not skipped: with a font configured
the row is processed, reported `OK`, and a file is written. -/
theorem C7_counterexample :
    main_step unitEnv emptyDisk args0 (some ⟨"f.ttf", 48⟩) false (some 0)
        [baseImg10] [] 0 ["text"] =
      .ok ([baseImg10, ⟨10, 10, "RGBA", ()⟩], [],
          "  [1] OK: text '' at 20,-12 (3x2px) -> output/image_0001.jpg",
          [("output/image_0001.jpg", ⟨10, 10, "RGB", ()⟩, 92)]) := by
  rfl

/-- Claim C7 witness: the Mode 2 short-row theorem applied to a
one-column row at enumerate index 4. -/
theorem C7_short_row_mode2_skip_witness :
    main_step unitEnv emptyDisk args0 none true none [] [] 4 ["x"] =
      .ok ([], [], ("  [" ++ natRepr 5 ++ "] ") ++ "SKIP: not enough columns", []) :=
  C7_short_row_mode2_skip.1 Unit unitEnv emptyDisk args0 none none [] [] 4 ["x"] (by decide)

/-- Claim C8 counterexample: with `--csv attributes.csv` absent from the
file system, the run ends in an uncaught `FileNotFoundError` — not in a
checked error message — because `main` opens the CSV without an existence
check. -/
theorem C8_counterexample :
    main_run unitEnv emptyDisk args0 =
      .uncaught ["✓ pilmoji enabled"] [] "FileNotFoundError: attributes.csv" := by
  rfl

/-- Claim C8 (corrected): a missing CSV file is NOT checked before use:
`open` raises an uncaught `FileNotFoundError` after the banner and before
any row is processed — no per-row output, no file written.  (The checked
fatal paths are the missing font and the missing Mode 1 base image.) -/
theorem C8_missing_csv_uncaught {α : Type} (env : Env α) (disk : Disk α)
    (args : Args) (hfont : args.font = none) (himg : args.image = none)
    (hcsv : disk.files.contains args.csv = false) :
    main_run env disk args =
      .uncaught [banner_line env.hasPilmoji] [] ("FileNotFoundError: " ++ args.csv) := by
  unfold main_run load_font load_base
  rw [hfont, himg]
  have hmem : ¬ args.csv ∈ disk.files := by simpa using hcsv
  simp [hmem]

/-- Claim C8 witness: the missing-CSV theorem applied to a file system
that contains an overlay image but no `attributes.csv`. -/
theorem C8_missing_csv_uncaught_witness :
    main_run unitEnv ovDisk args0 =
      .uncaught [banner_line unitEnv.hasPilmoji] [] ("FileNotFoundError: " ++ args0.csv) :=
  C8_missing_csv_uncaught unitEnv ovDisk args0 rfl rfl (by decide)

/-- Claim C10 (confirmed): if the CSV exists but holds only blank rows
(or nothing), the driver indexes the first element of the empty filtered
row list and fails with an uncaught IndexError, before printing any per-row
output or writing any file. -/
theorem C10_blank_rows_index_error {α : Type} (env : Env α) (disk : Disk α)
    (args : Args) (rows : List (List String))
    (hfont : args.font = none) (himg : args.image = none)
    (hcsv : disk.files.contains args.csv = true)
    (hrows : disk.csvs.lookup args.csv = some rows)
    (hblank : ∀ r ∈ rows, r = []) :
    main_run env disk args =
      .uncaught [banner_line env.hasPilmoji] [] "IndexError: list index out of range" := by
  have hfilter : rows.filter (fun r => !r.isEmpty) = [] := by
    rw [List.filter_eq_nil_iff]
    intro r hr
    simp [hblank r hr]
  unfold main_run load_font load_base
  rw [hfont, himg]
  have hmem : args.csv ∈ disk.files := by simpa using hcsv
  simp [hmem, hrows, hfilter]

/-- Claim C10 witness: the blank-CSV theorem applied to a disk holding a
`data.csv` whose three rows are all blank. -/
theorem C10_blank_rows_index_error_witness :
    main_run unitEnv blankCsvDisk { args0 with csv := "data.csv" } =
      .uncaught [banner_line unitEnv.hasPilmoji] [] "IndexError: list index out of range" :=
  C10_blank_rows_index_error unitEnv blankCsvDisk { args0 with csv := "data.csv" }
    [[], [], []] rfl rfl (by decide) (by decide) (by decide)

/-- A decimal digit character is a digit. -/
theorem decDigitChar_isDigit : ∀ d, d < 10 → (decDigitChar d).isDigit = true := by decide

/-- `natDigitsCore` only ever adds digit characters. -/
theorem natDigitsCore_digits :
    ∀ (fuel n : Nat) (acc : List Char), (∀ c ∈ acc, c.isDigit = true) →
      ∀ c ∈ natDigitsCore fuel n acc, c.isDigit = true := by
  intro fuel
  induction fuel with
  | zero => intro n acc hacc c hc; exact hacc c hc
  | succ fuel ih =>
    intro n acc hacc c hc
    unfold natDigitsCore at hc
    split at hc
    · exact hacc c hc
    · refine ih (n / 10) _ ?_ c hc
      intro c' hc'
      rcases List.mem_cons.mp hc' with h | h
      · subst h
        exact decDigitChar_isDigit _ (Nat.mod_lt _ (by decide))
      · exact hacc c' h

/-- Every character of `natRepr n` is a digit. -/
theorem natRepr_digits (n : Nat) : ∀ c ∈ (natRepr n).data, c.isDigit = true := by
  unfold natRepr
  split
  · intro c hc; simp at hc; subst hc; decide
  · exact natDigitsCore_digits (n + 1) n [] (by simp)

/-- Every character of `pad4 n` is a digit. -/
theorem pad4_digits (n : Nat) : ∀ c ∈ (pad4 n).data, c.isDigit = true := by
  unfold pad4
  dsimp only
  split
  · exact natRepr_digits n
  · intro c hc
    rw [String.data_append] at hc
    rcases List.mem_append.mp hc with h | h
    · rcases List.eq_of_mem_replicate h with rfl; decide
    · exact natRepr_digits n c h

/-- Splitting on a character that does not occur yields a single part. -/
theorem splitOnChar_no_sep (sep : Char) (cs : List Char)
    (h : ∀ c ∈ cs, c ≠ sep) : splitOnChar sep cs = [cs] := by
  induction cs with
  | nil => rfl
  | cons x xs ih =>
    have hx : x ≠ sep := h x (by simp)
    have ih' : splitOnChar sep xs = [xs] := ih (fun c hc => h c (by simp [hc]))
    unfold splitOnChar at ih' ⊢
    rw [List.foldr_cons, ih']
    simp [hx]

/-- A slash-free, non-trivial string is its own path name. -/
theorem pathNameList_no_slash (cs : List Char) (h0 : cs ≠ []) (h1 : cs ≠ ['.'])
    (hs : ∀ c ∈ cs, c ≠ '/') : pathNameList cs = cs := by
  unfold pathNameList
  rw [splitOnChar_no_sep '/' cs hs]
  simp [List.filter, h0, h1]

/-- In `cs ++ ".jpg"` the last dot is the one at index `cs.length`. -/
theorem rfindChar_append_dot_jpg (cs : List Char) :
    rfindChar '.' (cs ++ ['.', 'j', 'p', 'g']) = (cs.length : Int) := by
  unfold rfindChar
  rw [List.reverse_append,
    show (['.', 'j', 'p', 'g'] : List Char).reverse = ['g', 'p', 'j', '.'] from rfl,
    show (['g', 'p', 'j', '.'] ++ cs.reverse).findIdx? (· = '.') =
      ((['g', 'p', 'j', '.'] : List Char).findIdx? (· = '.')).or
        ((cs.reverse.findIdx? (· = '.')).map fun i => i + 4) from by
        simp [List.findIdx?_append],
    show (['g', 'p', 'j', '.'] : List Char).findIdx? (· = '.') = some 3 from rfl]
  simp
  omega

/-- The path suffix of `cs ++ ".jpg"` is `".jpg"` whenever `cs` is nonempty
and slash-free. -/
theorem pathSuffixList_append_jpg (cs : List Char) (h0 : cs ≠ [])
    (hs : ∀ c ∈ cs, c ≠ '/') :
    pathSuffixList (cs ++ ['.', 'j', 'p', 'g']) = ['.', 'j', 'p', 'g'] := by
  have hname : pathNameList (cs ++ ['.', 'j', 'p', 'g']) = cs ++ ['.', 'j', 'p', 'g'] := by
    refine pathNameList_no_slash _ (by simp) ?_ ?_
    · intro heq
      have := congrArg List.length heq
      simp at this
    · intro c hc
      rcases List.mem_append.mp hc with h | h
      · exact hs c h
      · simp at h
        rcases h with rfl | rfl | rfl | rfl <;> decide
  unfold pathSuffixList
  dsimp only
  rw [hname, rfindChar_append_dot_jpg]
  have h0' : 0 < cs.length := List.length_pos.mpr h0
  have hcond : 0 < (cs.length : Int) ∧ (cs.length : Int) < ((cs ++ ['.', 'j', 'p', 'g']).length : Int) - 1 := by
    constructor
    · exact_mod_cast h0'
    · simp
      omega
  rw [if_pos hcond]
  have htn : ((cs.length : Int)).toNat = cs.length := by simp
  rw [htn, List.drop_left]

/-- The default sequential output name always carries the `.jpg` suffix. -/
theorem pathSuffix_default_out_name (i : Nat) :
    pathSuffix (default_out_name i) = ".jpg" := by
  have h : pathSuffixList (("image_".data ++ (pad4 (i + 1)).data) ++ ['.', 'j', 'p', 'g']) =
      ['.', 'j', 'p', 'g'] := by
    refine pathSuffixList_append_jpg _ (by simp) ?_
    intro c hc
    rcases List.mem_append.mp hc with h | h
    · simp at h
      rcases h with rfl | rfl | rfl | rfl | rfl | rfl <;> decide
    · have hd := pad4_digits (i + 1) c h
      intro heq
      subst heq
      exact absurd hd (by decide)
  show (⟨pathSuffixList (default_out_name i).data⟩ : String) = ".jpg"
  rw [show (default_out_name i).data =
      ("image_".data ++ (pad4 (i + 1)).data) ++ ['.', 'j', 'p', 'g'] from rfl, h]

/-- Appending the default extension leaves the default name unchanged. -/
theorem add_default_ext_default_out_name (i : Nat) :
    add_default_ext (default_out_name i) = default_out_name i := by
  unfold add_default_ext
  rw [pathSuffix_default_out_name, if_neg (by decide)]

/-- Claim C5 counterexample: an omitted output name on the row at
enumerate index 5 yields `image_0006.jpg` (the name is built from the
1-based position `i+1`), not `image_0005.jpg` as the claim states. -/
theorem C5_counterexample :
    out_name_mode1 ["text", "hi"] 5 = "image_0006.jpg" ∧
    out_name_mode1 ["text", "hi"] 5 ≠ "image_0005.jpg" := by decide

/-- Claim C5 (corrected): a present, non-blank output name without a file
extension gets `.jpg` appended (in both modes); an omitted or blank output
name defaults to `image_NNNN.jpg` built from the 1-based row position
`i + 1`, so the row at 0-based index 4 — the fifth row — gets
`image_0005.jpg`, while index 5 gets `image_0006.jpg`. -/
theorem C5_output_names :
    (∀ (t v s : String) (i : Nat), pyStrip s ≠ "" → pathSuffix (pyStrip s) = "" →
        out_name_mode1 [t, v, s] i = pyStrip s ++ ".jpg") ∧
    (∀ (b t v s : String) (i : Nat), pyStrip s ≠ "" → pathSuffix (pyStrip s) = "" →
        out_name_mode2 [b, t, v, s] i = pyStrip s ++ ".jpg") ∧
    (∀ (row : List String) (i : Nat), row.length ≤ 2 ∨ pyStrip (row.getD 2 "") = "" →
        out_name_mode1 row i = default_out_name i) ∧
    (∀ (row : List String) (i : Nat), row.length ≤ 3 ∨ pyStrip (row.getD 3 "") = "" →
        out_name_mode2 row i = default_out_name i) ∧
    out_name_mode1 ["text", "hi", "out"] 0 = "out.jpg" ∧
    out_name_mode1 ["text", "hi"] 4 = "image_0005.jpg" := by
  refine ⟨?_, ?_, ?_, ?_, by decide, by decide⟩
  · intro t v s i h1 h2
    unfold out_name_mode1 raw_out_name_mode1 add_default_ext
    simp only [show [t, v, s].getD 2 "" = s from rfl]
    have hc : 2 < [t, v, s].length ∧ pyStrip s ≠ "" := ⟨by simp, h1⟩
    rw [if_pos hc, if_pos h2]
  · intro b t v s i h1 h2
    unfold out_name_mode2 raw_out_name_mode2 add_default_ext
    simp only [show [b, t, v, s].getD 3 "" = s from rfl]
    have hc : 3 < [b, t, v, s].length ∧ pyStrip s ≠ "" := ⟨by simp, h1⟩
    rw [if_pos hc, if_pos h2]
  · intro row i h
    have hneg : ¬(2 < row.length ∧ pyStrip (row.getD 2 "") ≠ "") := by
      rcases h with h | h
      · intro hc; exact absurd hc.1 (by omega)
      · intro hc; exact hc.2 h
    unfold out_name_mode1 raw_out_name_mode1
    rw [if_neg hneg, add_default_ext_default_out_name]
  · intro row i h
    have hneg : ¬(3 < row.length ∧ pyStrip (row.getD 3 "") ≠ "") := by
      rcases h with h | h
      · intro hc; exact absurd hc.1 (by omega)
      · intro hc; exact hc.2 h
    unfold out_name_mode2 raw_out_name_mode2
    rw [if_neg hneg, add_default_ext_default_out_name]

/-- Claim C5 witness: the naming theorem applied to concrete rows —
extension appending in both modes and positional defaults for short
rows. -/
theorem C5_output_names_witness :
    out_name_mode1 ["text", "hello", "out"] 7 = pyStrip "out" ++ ".jpg" ∧
    out_name_mode2 ["b.png", "text", "hello", "name"] 2 = pyStrip "name" ++ ".jpg" ∧
    out_name_mode1 ["text"] 4 = default_out_name 4 ∧
    out_name_mode2 ["a.png", "text", "x"] 9 = default_out_name 9 :=
  ⟨C5_output_names.1 "text" "hello" "out" 7 (by decide) (by decide),
   C5_output_names.2.1 "b.png" "text" "hello" "name" 2 (by decide) (by decide),
   C5_output_names.2.2.1 ["text"] 4 (Or.inl (by decide)),
   C5_output_names.2.2.2.1 ["a.png", "text", "x"] 9 (Or.inl (by decide))⟩
